import Mathlib

/-!
Verification of the gomb DDL-statement builder (package `gomb`).

The Go sources are shallowly embedded: each Go struct becomes a Lean
structure, each method a Lean function.  Go `int` is embedded as `Int`
(the validation rules compare against 0 with signed semantics), Go
`string` as `String`, Go's `(string, error)` return shape as
`String × Option String` (the error's message, `none` for a nil error)
and `(string, []error)` as `String × List String`.  `DataType` is a
named string type in Go, so it is embedded as `String`.
-/

/-- The single-quote character, used by the serializers when quoting
default values, comments and auto-number prefixes. -/
def squote : String := "'"

/-- Embeds `ColumnUpdate` (column.go): modification details carried by a
column inside an alter operation. -/
structure ColumnUpdate where
  name : String := ""
  dataType : String := ""
deriving Repr, DecidableEq

/-- Embeds the Go struct `Column` (column.go).  Field renames forced by
Lean keywords or the development's naming rules: `defaultValue` embeds
`Default`, `autoNumberPref` embeds `AutoNumberPrefix`.  `Attributes` is a
Go `map[string]any`: it is embedded as the list of key/value pairs in
the order one run of Go's `range` loop happens to enumerate them (Go
specifies no iteration order for maps), with each value already rendered
by `%v`.  `UpdateOptions *ColumnUpdate` (a possibly-nil pointer) is
embedded as an `Option`. -/
structure Column where
  name : String
  dataType : String := ""
  length : Int := 0
  precision : Int := 0
  scale : Int := 0
  primaryKey : Bool := false
  autoNumber : Bool := false
  autoNumberStart : Int := 0
  autoNumberPref : String := ""
  notNull : Bool := false
  unique : Bool := false
  defaultValue : String := ""
  check : String := ""
  references : String := ""
  generated : String := ""
  collation : String := ""
  comment : String := ""
  storage : String := ""
  compression : String := ""
  identityStart : Int := 0
  identityInc : Int := 0
  attributes : List (String × String) := []
  updateOptions : Option ColumnUpdate := none
deriving Repr, DecidableEq

/-- Embeds `NewColumn` (column.go): a column with only the name set. -/
def newColumn (name : String) : Column := { name := name }

/-- The data-type tokens of part_000 (`SerialType` … `DateTimeType`). -/
def serialType : String := "serial"

def stringType : String := "string"

def integerType : String := "integer"

def decimalType : String := "decimal"

def booleanType : String := "boolean"

def dateType : String := "date"

def dateTimeType : String := "datetime"

/-- Embeds the `validDataTypes` map of column.go: whether a data type is
one of the seven recognized tokens. -/
def validDataType (d : String) : Bool :=
  d == serialType || d == stringType || d == integerType || d == decimalType
    || d == booleanType || d == dateType || d == dateTimeType

/-- Embeds `Column.ToDataTypeString` (column.go): maps a data-type token
to its SQL type token, reading length/precision/scale off the column. -/
def Column.toDataTypeString (col : Column) (data : String) : String :=
  if data = serialType then "SERIAL"
  else if data = stringType then
    if col.length > 0 then "VARCHAR(" ++ toString col.length ++ ")" else "VARCHAR"
  else if data = integerType then "INTEGER"
  else if data = decimalType then
    if col.precision > 0 ∧ col.scale > 0 then
      "DECIMAL(" ++ toString col.precision ++ "," ++ toString col.scale ++ ")"
    else if col.precision > 0 ∧ col.scale = 0 then
      "DECIMAL(" ++ toString col.precision ++ ")"
    else "DECIMAL"
  else if data = booleanType then "BOOLEAN"
  else if data = dateType then "DATE"
  else if data = dateTimeType then "TIMESTAMP"
  else "VARCHAR"

/-- Embeds `Column.ToDataType` (column.go). -/
def Column.toDataType (col : Column) : String :=
  col.toDataTypeString col.dataType

/-- Embeds `Column.Validate` (column.go): the six checks in source
order, first failure returned immediately, `none` when all pass. -/
def Column.validate (col : Column) : Option String :=
  if ¬ validDataType col.dataType then
    some ("invalid data type: " ++ col.dataType)
  else if col.autoNumber ∧ col.autoNumberStart < 0 then
    some "auto-number start must be greater or equal than 0"
  else if col.notNull ∧ col.defaultValue ≠ "" then
    some "column cannot be both NOT NULL and have a DEFAULT value"
  else if col.identityStart > 0 ∧ col.identityInc ≤ 0 then
    some "identity increment must be greater than 0"
  else if col.check ≠ "" ∧ ¬ (col.check.contains '(') then
    some "check constraint must have an expression in parentheses"
  else if col.references ≠ "" ∧ ¬ (col.references.contains '(') then
    some "foreign key references must be in the format 'table(column)'"
  else none

/-- Models the success of Go's `strconv.ParseFloat(s, 64)` on the
mantissa part: digits, optionally split by one dot, with at least one
digit present. -/
def mantissaOk (l : List Char) : Bool :=
  match l.span Char.isDigit with
  | (ds, []) => !ds.isEmpty
  | (ds, '.' :: rest) => rest.all Char.isDigit && (!ds.isEmpty || !rest.isEmpty)
  | _ => false

/-- Models the exponent suffix accepted by `strconv.ParseFloat`: empty,
or `e`/`E`, an optional sign and at least one digit. -/
def exponentOk (l : List Char) : Bool :=
  match l with
  | [] => true
  | e :: rest =>
    (e == 'e' || e == 'E') &&
      (match rest with
       | [] => false
       | s :: ds =>
         if s == '+' || s == '-' then !ds.isEmpty && ds.all Char.isDigit
         else (s :: ds).all Char.isDigit)

/-- Models the success of Go's `strconv.ParseFloat(s, 64)` (column.go
uses it only as a yes/no probe on the default value).  Covers the
decimal forms and the case-insensitive `inf`/`infinity`/`nan` words with
an optional sign; Go additionally accepts hexadecimal floats and
digit-separating underscores, which no claim touches. -/
def parseFloatOk (s : String) : Bool :=
  match s.data with
  | [] => false
  | first :: rest =>
    let body := if first == '+' || first == '-' then rest else first :: rest
    let lower := body.map Char.toLower
    if lower = "inf".data || lower = "infinity".data || lower = "nan".data then true
    else
      mantissaOk (body.takeWhile fun c => c.isDigit || c == '.') &&
        exponentOk (body.dropWhile fun c => c.isDigit || c == '.')

/-- Embeds the `needsQuotes` computation inside `Column.ToSQL`
(column.go): keywords, parseable floats and the lowercase boolean
literals stay unquoted. -/
def needsQuotes (v : String) : Bool :=
  !(v == "CURRENT_TIMESTAMP" || v == "CURRENT_DATE" || v == "CURRENT_TIME"
      || v == "LOCAL_TIME" || v == "LOCAL_TIMESTAMP" || v == "TRUE"
      || v == "FALSE" || v == "NULL"
      || parseFloatOk v || v == "true" || v == "false")

/-- The `DEFAULT` clause of `Column.ToSQL` (column.go), empty when no
default value is set. -/
def defaultClause (c : Column) : String :=
  if c.defaultValue = "" then ""
  else if needsQuotes c.defaultValue then
    " DEFAULT " ++ squote ++ c.defaultValue ++ squote
  else " DEFAULT " ++ c.defaultValue

/-- The body of `Column.ToSQL` (column.go) after validation: the
builder's writes in source order, as one concatenation. -/
def columnBody (c : Column) : String :=
  c.name ++ " "
    ++ (if c.dataType ≠ "" then c.toDataTypeString c.dataType else "")
    ++ (if c.primaryKey then " PRIMARY KEY" else "")
    ++ (if c.autoNumber then
          " AUTOINCREMENT"
            ++ (if c.autoNumberStart > 0 then " START WITH " ++ toString c.autoNumberStart else "")
            ++ (if c.autoNumberPref ≠ "" then " PREFIX " ++ squote ++ c.autoNumberPref ++ squote else "")
        else "")
    ++ (if c.notNull then " NOT NULL" else "")
    ++ (if c.unique then " UNIQUE" else "")
    ++ defaultClause c
    ++ (if c.check ≠ "" then " CHECK " ++ c.check else "")
    ++ (if c.references ≠ "" then " REFERENCES " ++ c.references else "")
    ++ (if c.generated ≠ "" then " GENERATED ALWAYS AS (" ++ c.generated ++ ")" else "")
    ++ (if c.collation ≠ "" then " COLLATE " ++ c.collation else "")
    ++ (if c.comment ≠ "" then " COMMENT " ++ squote ++ c.comment ++ squote else "")
    ++ (if c.storage ≠ "" then " STORAGE " ++ c.storage else "")
    ++ (if c.compression ≠ "" then " COMPRESSION " ++ c.compression else "")
    ++ (if c.identityStart > 0 ∧ c.identityInc > 0 then
          " IDENTITY (" ++ toString c.identityStart ++ "," ++ toString c.identityInc ++ ")"
        else "")
    ++ c.attributes.foldl (fun acc kv => acc ++ " " ++ kv.1 ++ " " ++ kv.2) ""

/-- Embeds `Column.ToSQL` (column.go): validate first, returning the
empty string with the error; otherwise emit the clause chain. -/
def Column.toSQL (c : Column) : String × Option String :=
  match c.validate with
  | some e => ("", some e)
  | none => (columnBody c, none)

example : ({ newColumn "id" with dataType := serialType, primaryKey := true } : Column).toSQL
    = ("id SERIAL PRIMARY KEY", none) := by decide

example : ({ name := "x", dataType := stringType, length := 255, notNull := true : Column }).toSQL
    = ("x VARCHAR(255) NOT NULL", none) := by decide

/-- Embeds the Go struct `Table` (create_table.go). -/
structure Table where
  name : String
  label : String := ""
  columns : List Column := []
  attributes : List (String × String) := []
  comment : String := ""
deriving Repr, DecidableEq

/-- Embeds `NewTable` (create_table.go). -/
def newTable (name : String) : Table := { name := name }

/-- Embeds `Table.AddColumn` (create_table.go). -/
def Table.addColumn (t : Table) (c : Column) : Table :=
  { t with columns := t.columns ++ [c] }

/-- One pass of the column loop of `Table.ToSQL` (create_table.go): a
successful column appends its text to the definitions, a failing one
appends its error and is skipped. -/
def columnStep (acc : List String × List String) (c : Column) : List String × List String :=
  match c.toSQL with
  | (s, none) => (acc.1 ++ [s], acc.2)
  | (_, some e) => (acc.1, acc.2 ++ [e])

/-- Embeds `Table.ToSQL` (create_table.go).  Go accumulates the pieces
`CREATE TABLE <name>`, `(<columns>)` and the optional comment fragment in
a slice joined by a space; the join is written out as the equivalent
concatenation. -/
def Table.toSQL (t : Table) : String × List String :=
  if t.name = "" then ("", ["table name cannot be empty"])
  else
    let (columnDefs, errs) := t.columns.foldl columnStep ([], [])
    if columnDefs = [] then
      ("", errs ++ ["no valid columns defined for table " ++ t.name])
    else
      let sql := "CREATE TABLE " ++ t.name ++ " ("
        ++ String.intercalate ", " columnDefs ++ ")"
        ++ (if t.comment ≠ "" then
              " COMMENT ON TABLE " ++ t.name ++ " IS " ++ squote ++ t.comment ++ squote
            else "")
      if errs ≠ [] then ("", errs) else (sql, [])

/-- Embeds `AlterTableOperation` (part_000): the four operation kinds. -/
inductive AlterTableOperation where
  | addColumnOp
  | dropColumnOp
  | renameColumnOp
  | alterColumnTypeOp
deriving Repr, DecidableEq

/-- Embeds `ColumnOperation` (alter_table.go). -/
structure ColumnOperation where
  operation : AlterTableOperation
  column : Column
deriving Repr, DecidableEq

/-- Embeds the Go struct `AlterTable` (alter_table.go). -/
structure AlterTable where
  tableName : String
  operations : List ColumnOperation := []
  comment : String := ""
deriving Repr, DecidableEq

/-- Embeds `NewAlterTable` (alter_table.go). -/
def newAlterTable (name : String) : AlterTable := { tableName := name }

/-- Embeds `AlterTable.AddColumn` (alter_table.go); the claims only use
non-nil columns, so the column argument is the dereferenced value. -/
def AlterTable.addColumn (t : AlterTable) (c : Column) : AlterTable :=
  { t with operations := t.operations ++ [⟨.addColumnOp, c⟩] }

/-- Embeds `AlterTable.DropColumn` (alter_table.go). -/
def AlterTable.dropColumn (t : AlterTable) (c : Column) : AlterTable :=
  { t with operations := t.operations ++ [⟨.dropColumnOp, c⟩] }

/-- Embeds `AlterTable.AlterColumn` (alter_table.go) for a non-nil
column.  Go reads `column.UpdateOptions.Name`, dereferencing the
`UpdateOptions` pointer unconditionally; a nil descriptor is a runtime
panic, embedded as `none`. -/
def AlterTable.alterColumn (t : AlterTable) (c : Column) : Option AlterTable :=
  match c.updateOptions with
  | none => none
  | some u =>
    if u.name ≠ "" then
      some { t with operations := t.operations ++ [⟨.renameColumnOp, c⟩] }
    else if u.dataType ≠ "" then
      some { t with operations := t.operations ++ [⟨.alterColumnTypeOp, c⟩] }
    else some t

/-- Embeds `AlterTable.Validate` (alter_table.go). -/
def AlterTable.validate (t : AlterTable) : List String :=
  (if t.tableName = "" then ["table name cannot be empty"] else [])
    ++ (if t.operations = [] then ["alter table must have at least one operation"] else [])

/-- One pass of the operation loop of `AlterTable.ToSQL`
(alter_table.go).  The rename and alter-type arms dereference
`UpdateOptions`; a nil descriptor is a runtime panic, embedded as
`none`. -/
def operationStep (acc : List String × List String) (op : ColumnOperation) :
    Option (List String × List String) :=
  match op.operation with
  | .addColumnOp =>
    match op.column.toSQL with
    | (_, some e) => some (acc.1, acc.2 ++ [e])
    | (s, none) => some (acc.1 ++ ["ADD COLUMN " ++ s], acc.2)
  | .dropColumnOp => some (acc.1 ++ ["DROP COLUMN " ++ op.column.name], acc.2)
  | .renameColumnOp =>
    match op.column.updateOptions with
    | none => none
    | some u => some (acc.1 ++ ["RENAME COLUMN " ++ op.column.name ++ " TO " ++ u.name], acc.2)
  | .alterColumnTypeOp =>
    match op.column.updateOptions with
    | none => none
    | some u =>
      some (acc.1 ++ ["ALTER COLUMN " ++ op.column.toDataType ++ " TYPE "
        ++ op.column.toDataTypeString u.dataType], acc.2)

/-- Embeds `AlterTable.ToSQL` (alter_table.go).  Note the source's final
success line is `return sql, nil`: errors collected from failing add
operations are dropped whenever at least one operation produced a
definition.  `none` embeds the nil-pointer panic of a rename/alter-type
operation whose column has no update descriptor. -/
def AlterTable.toSQL (t : AlterTable) : Option (String × List String) :=
  let errs := t.validate
  if errs ≠ [] then some ("", errs)
  else
    match t.operations.foldlM operationStep ([], []) with
    | none => none
    | some (operationDefs, errs2) =>
      if operationDefs = [] then
        some ("", errs2 ++ ["no valid operations defined for table " ++ t.tableName])
      else
        some ("ALTER TABLE " ++ t.tableName ++ " " ++ String.intercalate ", " operationDefs
          ++ (if t.comment ≠ "" then
                " COMMENT ON TABLE " ++ t.tableName ++ " IS " ++ squote ++ t.comment ++ squote
              else ""), [])

example :
    ((newTable "users").addColumn { newColumn "id" with dataType := serialType, primaryKey := true }
      |>.addColumn { newColumn "name" with dataType := stringType, length := 50 }).toSQL
    = ("CREATE TABLE users (id SERIAL PRIMARY KEY, name VARCHAR(50))", []) := by decide

example :
    ((newAlterTable "users").addColumn
      { newColumn "email" with dataType := stringType, length := 255, notNull := true }).toSQL
    = some ("ALTER TABLE users ADD COLUMN email VARCHAR(255) NOT NULL", []) := by decide

/-- Embeds the Go struct `Index` (part_001 of the sources / the index
file appended to column_test.go).  `usingOpt` embeds the `using` field
and `whereCond` the `where` field (both clash with Lean syntax). -/
structure Index where
  name : String
  table : String := ""
  columns : List String := []
  unique : Bool := false
  concurrently : Bool := false
  usingOpt : String := ""
  whereCond : String := ""
  schema : String := ""
  includeColumns : List String := []
  method : String := ""
  tablespace : String := ""
  withOptions : List String := []
deriving Repr, DecidableEq

/-- Embeds `NewIndex`: name set, empty column list, and the `using`
field defaulted to "btree" (the `method` field stays empty). -/
def newIndex (name : String) : Index :=
  { name := name, columns := [], usingOpt := "btree" }

/-- The builder calls available on `Index` (each embeds the setter of
the same name; `partialIndex` and `expressionIndex` are the sugar
helpers at the end of the index file). -/
inductive IndexOp where
  | onTable (table : String)
  | addColumn (column : String)
  | setUnique
  | setConcurrently
  | setMethod (method : String)
  | setWhere (condition : String)
  | setSchema (schema : String)
  | addIncludeColumn (column : String)
  | setTablespace (tablespace : String)
  | addWithOption (option : String)
  | partialIndex (condition : String)
  | expressionIndex (expression : String)
  | multiColumnIndex (columns : List String)
deriving Repr, DecidableEq

/-- Applies one builder call to an index, following each Go setter's
body. -/
def applyIndexOp (idx : Index) (op : IndexOp) : Index :=
  match op with
  | .onTable t => { idx with table := t }
  | .addColumn c => { idx with columns := idx.columns ++ [c] }
  | .setUnique => { idx with unique := true }
  | .setConcurrently => { idx with concurrently := true }
  | .setMethod m => { idx with method := m }
  | .setWhere w => { idx with whereCond := w }
  | .setSchema s => { idx with schema := s }
  | .addIncludeColumn c => { idx with includeColumns := idx.includeColumns ++ [c] }
  | .setTablespace ts => { idx with tablespace := ts }
  | .addWithOption o => { idx with withOptions := idx.withOptions ++ [o] }
  | .partialIndex w => { idx with whereCond := w }
  | .expressionIndex e => { idx with columns := idx.columns ++ [e] }
  | .multiColumnIndex cs => { idx with columns := idx.columns ++ cs }

/-- An index built with `NewIndex` followed by a chain of builder
calls. -/
def buildIndex (name : String) (ops : List IndexOp) : Index :=
  ops.foldl applyIndexOp (newIndex name)

/-- Embeds `Index.ToSQL`: required-field checks, then the writes of the
string builder in source order as one concatenation. -/
def Index.toSQL (idx : Index) : String × Option String :=
  if idx.name = "" then ("", some "index name is required")
  else if idx.table = "" then ("", some "table name is required")
  else if idx.columns = [] then ("", some "at least one column is required for an index")
  else
    ("CREATE " ++ (if idx.unique then "UNIQUE " else "") ++ "INDEX "
      ++ (if idx.concurrently then "CONCURRENTLY " else "")
      ++ idx.name ++ " ON "
      ++ (if idx.schema ≠ "" then idx.schema ++ "." else "")
      ++ idx.table
      ++ (if idx.method ≠ "" then " USING " ++ idx.method else "")
      ++ " (" ++ String.intercalate ", " idx.columns ++ ")"
      ++ (if idx.includeColumns ≠ [] then
            " INCLUDE (" ++ String.intercalate ", " idx.includeColumns ++ ")" else "")
      ++ (if idx.whereCond ≠ "" then " WHERE " ++ idx.whereCond else "")
      ++ (if idx.withOptions ≠ [] then
            " WITH (" ++ String.intercalate ", " idx.withOptions ++ ")" else "")
      ++ (if idx.tablespace ≠ "" then " TABLESPACE " ++ idx.tablespace else ""), none)

/-- Everything `Index.ToSQL` writes before the USING clause.  Reads
neither the `method` nor the `using` field. -/
def indexPre (idx : Index) : String :=
  "CREATE " ++ (if idx.unique then "UNIQUE " else "") ++ "INDEX "
    ++ (if idx.concurrently then "CONCURRENTLY " else "")
    ++ idx.name ++ " ON "
    ++ (if idx.schema ≠ "" then idx.schema ++ "." else "")
    ++ idx.table

/-- Everything `Index.ToSQL` writes after the USING clause.  Reads
neither the `method` nor the `using` field. -/
def indexPost (idx : Index) : String :=
  " (" ++ String.intercalate ", " idx.columns ++ ")"
    ++ (if idx.includeColumns ≠ [] then
          " INCLUDE (" ++ String.intercalate ", " idx.includeColumns ++ ")" else "")
    ++ (if idx.whereCond ≠ "" then " WHERE " ++ idx.whereCond else "")
    ++ (if idx.withOptions ≠ [] then
          " WITH (" ++ String.intercalate ", " idx.withOptions ++ ")" else "")
    ++ (if idx.tablespace ≠ "" then " TABLESPACE " ++ idx.tablespace else "")

/-- Embeds the Go struct `DropIndex`. -/
structure DropIndex where
  name : String
  ifExists : Bool := false
  concurrently : Bool := false
  cascade : Bool := false
  restrict : Bool := false
  schema : String := ""
deriving Repr, DecidableEq

/-- Embeds `NewDropIndex`. -/
def newDropIndex (name : String) : DropIndex := { name := name }

/-- The builder calls available on `DropIndex`. -/
inductive DropIndexOp where
  | setIfExists
  | setConcurrently
  | setCascade
  | setRestrict
  | setSchema (schema : String)
deriving Repr, DecidableEq

/-- Applies one builder call to a `DropIndex`, following each Go
setter's body: `SetCascade` clears `restrict` and `SetRestrict` clears
`cascade`. -/
def applyDropIndexOp (di : DropIndex) (op : DropIndexOp) : DropIndex :=
  match op with
  | .setIfExists => { di with ifExists := true }
  | .setConcurrently => { di with concurrently := true }
  | .setCascade => { di with cascade := true, restrict := false }
  | .setRestrict => { di with restrict := true, cascade := false }
  | .setSchema s => { di with schema := s }

/-- A `DropIndex` built with `NewDropIndex` and a chain of builder
calls. -/
def buildDropIndex (name : String) (ops : List DropIndexOp) : DropIndex :=
  ops.foldl applyDropIndexOp (newDropIndex name)

/-- Embeds `DropIndex.ToSQL`. -/
def DropIndex.toSQL (di : DropIndex) : String × Option String :=
  if di.name = "" then ("", some "index name is required")
  else
    ("DROP INDEX "
      ++ (if di.concurrently then "CONCURRENTLY " else "")
      ++ (if di.ifExists then "IF EXISTS " else "")
      ++ (if di.schema ≠ "" then di.schema ++ "." else "")
      ++ di.name
      ++ (if di.cascade then " CASCADE" else if di.restrict then " RESTRICT" else ""), none)

/-- Embeds the Go struct `SetIndexTablespace`. -/
structure SetIndexTablespace where
  indexName : String
  tablespace : String
  nowait : Bool := false
  schema : String := ""
deriving Repr, DecidableEq

/-- Embeds `NewSetIndexTablespace`. -/
def newSetIndexTablespace (indexName tablespace : String) : SetIndexTablespace :=
  { indexName := indexName, tablespace := tablespace }

/-- Embeds `SetIndexTablespace.ToSQL`. -/
def SetIndexTablespace.toSQL (sit : SetIndexTablespace) : String × Option String :=
  if sit.indexName = "" then ("", some "index name is required")
  else if sit.tablespace = "" then ("", some "tablespace name is required")
  else
    ("ALTER INDEX "
      ++ (if sit.schema ≠ "" then sit.schema ++ "." else "")
      ++ sit.indexName
      ++ " SET TABLESPACE " ++ sit.tablespace
      ++ (if sit.nowait then " NOWAIT" else ""), none)

example :
    (buildIndex "i" [.onTable "t", .addColumn "c", .setUnique]).toSQL
    = ("CREATE UNIQUE INDEX i ON t (c)", none) := by decide

example :
    (buildDropIndex "i" [.setConcurrently, .setCascade, .setIfExists, .setSchema "s"]).toSQL
    = ("DROP INDEX CONCURRENTLY IF EXISTS s.i CASCADE", none) := by decide

/-- String concatenation is associative (the serializers write flat
token chains; regrouping them is free). -/
theorem strAppendAssoc (a b c : String) : a ++ b ++ c = a ++ (b ++ c) := by
  cases a; cases b; cases c
  exact congrArg String.mk (List.append_assoc _ _ _)

/-- C4: a non-nil column handed to `AlterTable.AlterColumn` whose update
descriptor populates neither a new name nor a new data type is silently
dropped: the call returns normally with the operation list unchanged and
records no error. -/
theorem alterColumn_empty_descriptor_silently_dropped (t : AlterTable) (c : Column)
    (u : ColumnUpdate) (hu : c.updateOptions = some u) (hn : u.name = "")
    (hd : u.dataType = "") : t.alterColumn c = some t := by
  simp [AlterTable.alterColumn, hu, hn, hd]

theorem alterColumn_empty_descriptor_silently_dropped_witness :
    (newAlterTable "Account").alterColumn { newColumn "x" with updateOptions := some {} }
      = some (newAlterTable "Account") :=
  alterColumn_empty_descriptor_silently_dropped _ _ {} rfl rfl rfl

/-- C3: an alter-type operation (the column's update descriptor carries
a new data type) is rendered as `ALTER COLUMN <type token of the current
type> TYPE <type token of the new type>`: the emitted text names the two
type tokens, not the column name. -/
theorem alterType_operation_emits_type_tokens (acc : List String × List String)
    (op : ColumnOperation) (u : ColumnUpdate) (hop : op.operation = .alterColumnTypeOp)
    (hu : op.column.updateOptions = some u) :
    operationStep acc op = some (acc.1
      ++ ["ALTER COLUMN " ++ op.column.toDataTypeString op.column.dataType
          ++ " TYPE " ++ op.column.toDataTypeString u.dataType], acc.2) := by
  simp [operationStep, hop, hu, Column.toDataType]

/-- The column of the repository's own alter-type test: current type
integer, new type string. -/
def c3Column : Column :=
  { newColumn "ownerId" with
      dataType := integerType, updateOptions := some { dataType := stringType } }

theorem alterType_operation_emits_type_tokens_witness :
    operationStep ([], []) ⟨.alterColumnTypeOp, c3Column⟩
      = some (["ALTER COLUMN INTEGER TYPE VARCHAR"], []) := by
  rw [alterType_operation_emits_type_tokens ([], []) _ { dataType := stringType } rfl rfl]
  decide

/-- The column of the C1 failing input: a valid data type but `NotNull`
combined with a non-empty default, so `Column.Validate` rejects it. -/
def c1BadColumn : Column :=
  { newColumn "bad" with dataType := integerType, notNull := true, defaultValue := "x" }

/-- The C1 failing input: an `AlterTable` holding one add operation
whose column fails validation and one drop operation that succeeds. -/
def c1Alter : AlterTable :=
  { tableName := "t",
    operations := [⟨.addColumnOp, c1BadColumn⟩, ⟨.dropColumnOp, newColumn "c"⟩] }

/-- C1 (the code, evaluated at the failing input): the add operation's
column fails validation — its `ToSQL` detects the error — yet
`AlterTable.ToSQL` returns the generated SQL with a nil error
collection, because the source's success path is `return sql, nil`,
discarding the errors collected from failing add operations whenever at
least one operation produced a definition. -/
theorem alterTable_emits_sql_despite_detected_error :
    c1BadColumn.toSQL = ("", some "column cannot be both NOT NULL and have a DEFAULT value")
      ∧ c1Alter.toSQL = some ("ALTER TABLE t DROP COLUMN c", []) := by
  constructor
  · decide
  · decide

/-- C10: `SetIndexTablespace.ToSQL` errors (returning the empty string)
exactly when the index name or the tablespace is empty; otherwise it
emits `ALTER INDEX [<schema>.]<name> SET TABLESPACE <tablespace>` with
` NOWAIT` appended exactly when the nowait flag is set. -/
theorem setIndexTablespace_toSQL_spec (sit : SetIndexTablespace) :
    (sit.toSQL.2.isSome ↔ (sit.indexName = "" ∨ sit.tablespace = ""))
      ∧ (sit.toSQL.2.isSome → sit.toSQL.1 = "")
      ∧ (sit.indexName ≠ "" → sit.tablespace ≠ "" →
          sit.toSQL = ("ALTER INDEX " ++ (if sit.schema ≠ "" then sit.schema ++ "." else "")
            ++ sit.indexName ++ " SET TABLESPACE " ++ sit.tablespace
            ++ (if sit.nowait then " NOWAIT" else ""), none)) := by
  unfold SetIndexTablespace.toSQL
  by_cases h1 : sit.indexName = "" <;> by_cases h2 : sit.tablespace = "" <;>
    simp [h1, h2]

theorem setIndexTablespace_toSQL_spec_witness :
    ((newSetIndexTablespace "i" "ts").toSQL = ("ALTER INDEX i SET TABLESPACE ts", none))
      ∧ ((newSetIndexTablespace "" "ts").toSQL.2.isSome = true) := by
  constructor
  · rw [(setIndexTablespace_toSQL_spec (newSetIndexTablespace "i" "ts")).2.2
      (by decide) (by decide)]
    decide
  · exact ((setIndexTablespace_toSQL_spec (newSetIndexTablespace "" "ts")).1.mpr
      (Or.inl rfl))

/-- Any chain of `DropIndex` setter calls keeps the cascade and restrict
flags mutually exclusive, since `SetCascade` clears `restrict` and
`SetRestrict` clears `cascade`. -/
theorem dropIndex_foldl_exclusive (ops : List DropIndexOp) (di : DropIndex)
    (h : ¬(di.cascade = true ∧ di.restrict = true)) :
    ¬((ops.foldl applyDropIndexOp di).cascade = true
      ∧ (ops.foldl applyDropIndexOp di).restrict = true) := by
  induction ops generalizing di with
  | nil => exact h
  | cons op rest ih =>
    apply ih
    cases op <;> simp [applyDropIndexOp] <;> simp_all

/-- C9: a `DropIndex` with a non-empty name emits the fixed clause order
`DROP INDEX [CONCURRENTLY] [IF EXISTS] [<schema>.]<name>
[CASCADE|RESTRICT]` with at most one of CASCADE/RESTRICT (the trailing
clause is chosen by an exclusive if/else); and after any sequence of
setter calls starting from `NewDropIndex` at most one of the two flags
is set, since setting one clears the other. -/
theorem dropIndex_clause_order_and_exclusivity (name : String) (ops : List DropIndexOp) :
    (¬((buildDropIndex name ops).cascade = true ∧ (buildDropIndex name ops).restrict = true))
      ∧ (∀ di : DropIndex, di.name ≠ "" →
          di.toSQL = ("DROP INDEX "
            ++ (if di.concurrently then "CONCURRENTLY " else "")
            ++ (if di.ifExists then "IF EXISTS " else "")
            ++ (if di.schema ≠ "" then di.schema ++ "." else "")
            ++ di.name
            ++ (if di.cascade then " CASCADE"
                else if di.restrict then " RESTRICT" else ""), none)) := by
  constructor
  · exact dropIndex_foldl_exclusive ops (newDropIndex name) (by simp [newDropIndex])
  · intro di h
    simp [DropIndex.toSQL, h]

theorem dropIndex_clause_order_and_exclusivity_witness :
    (¬((buildDropIndex "i" [.setRestrict, .setCascade]).cascade = true
      ∧ (buildDropIndex "i" [.setRestrict, .setCascade]).restrict = true))
      ∧ (buildDropIndex "i" [.setConcurrently, .setCascade, .setIfExists,
          .setSchema "s"]).toSQL = ("DROP INDEX CONCURRENTLY IF EXISTS s.i CASCADE", none) := by
  constructor
  · exact (dropIndex_clause_order_and_exclusivity "i" [.setRestrict, .setCascade]).1
  · rw [(dropIndex_clause_order_and_exclusivity "i" []).2
      (buildDropIndex "i" [.setConcurrently, .setCascade, .setIfExists, .setSchema "s"])
      (by decide)]
    decide

/-- No builder call writes the `using` field, and every call other than
`SetMethod` leaves the `method` field unchanged. -/
theorem index_foldl_method_preserved (ops : List IndexOp) (idx : Index)
    (h : ∀ m, IndexOp.setMethod m ∉ ops) :
    (ops.foldl applyIndexOp idx).method = idx.method
      ∧ (ops.foldl applyIndexOp idx).usingOpt = idx.usingOpt := by
  induction ops generalizing idx with
  | nil => exact ⟨rfl, rfl⟩
  | cons op rest ih =>
    have h1 : ∀ m, IndexOp.setMethod m ∉ rest := fun m hm => h m (List.mem_cons_of_mem _ hm)
    cases op with
    | setMethod m => exact absurd (List.mem_cons_self _ _) (h m)
    | onTable t => simpa [applyIndexOp] using ih _ h1
    | addColumn c => simpa [applyIndexOp] using ih _ h1
    | setUnique => simpa [applyIndexOp] using ih _ h1
    | setConcurrently => simpa [applyIndexOp] using ih _ h1
    | setWhere w => simpa [applyIndexOp] using ih _ h1
    | setSchema s => simpa [applyIndexOp] using ih _ h1
    | addIncludeColumn c => simpa [applyIndexOp] using ih _ h1
    | setTablespace ts => simpa [applyIndexOp] using ih _ h1
    | addWithOption o => simpa [applyIndexOp] using ih _ h1
    | partialIndex w => simpa [applyIndexOp] using ih _ h1
    | expressionIndex e => simpa [applyIndexOp] using ih _ h1
    | multiColumnIndex cs => simpa [applyIndexOp] using ih _ h1

/-- C8: an index built from `NewIndex` by any chain of builder calls
that never includes `SetMethod` keeps the stored `using` default "btree"
and an empty `method` field, and its successful `ToSQL` output carries
no USING clause (it is exactly the pre- and post-USING segments, which
read neither `method` nor `using`); in general a successful `ToSQL`
emits ` USING <method>` between those segments exactly when the
`method` field is non-empty. -/
theorem index_btree_default_never_rendered (name : String) (ops : List IndexOp)
    (h : ∀ m, IndexOp.setMethod m ∉ ops) :
    ((buildIndex name ops).usingOpt = "btree" ∧ (buildIndex name ops).method = ""
      ∧ ((buildIndex name ops).name ≠ "" → (buildIndex name ops).table ≠ "" →
          (buildIndex name ops).columns ≠ [] →
          (buildIndex name ops).toSQL
            = (indexPre (buildIndex name ops) ++ indexPost (buildIndex name ops), none)))
      ∧ (∀ idx : Index, idx.name ≠ "" → idx.table ≠ "" → idx.columns ≠ [] →
          idx.toSQL = (indexPre idx
            ++ (if idx.method ≠ "" then " USING " ++ idx.method else "")
            ++ indexPost idx, none)) := by
  have general : ∀ idx : Index, idx.name ≠ "" → idx.table ≠ "" → idx.columns ≠ [] →
      idx.toSQL = (indexPre idx
        ++ (if idx.method ≠ "" then " USING " ++ idx.method else "")
        ++ indexPost idx, none) := by
    intro idx h1 h2 h3
    simp only [Index.toSQL, indexPre, indexPost, h1, h2, h3, if_neg, ite_false,
      if_false]
    simp only [strAppendAssoc]
  have pres := index_foldl_method_preserved ops (newIndex name) h
  have pm : (buildIndex name ops).method = "" := pres.1
  have pu : (buildIndex name ops).usingOpt = "btree" := pres.2
  refine ⟨⟨pu, pm, ?_⟩, general⟩
  intro h1 h2 h3
  rw [general (buildIndex name ops) h1 h2 h3, pm]
  simp

theorem index_btree_default_never_rendered_witness :
    ((buildIndex "i" [.onTable "t", .addColumn "c", .setUnique]).usingOpt = "btree"
      ∧ (buildIndex "i" [.onTable "t", .addColumn "c", .setUnique]).toSQL
          = ("CREATE UNIQUE INDEX i ON t (c)", none))
      ∧ (buildIndex "i" [.onTable "t", .addColumn "c", .setMethod "hash"]).toSQL
          = ("CREATE INDEX i ON t USING hash (c)", none) := by
  have h := index_btree_default_never_rendered "i" [.onTable "t", .addColumn "c", .setUnique]
    (by intro m hm; simp at hm)
  refine ⟨⟨h.1.1, ?_⟩, ?_⟩
  · rw [h.1.2.2 (by decide) (by decide) (by decide)]
    decide
  · rw [h.2 (buildIndex "i" [.onTable "t", .addColumn "c", .setMethod "hash"])
      (by decide) (by decide) (by decide)]
    decide

/-- The text a column contributes to a CREATE TABLE statement, when it
serializes successfully. -/
def okDef (c : Column) : Option String :=
  match c.toSQL with
  | (s, none) => some s
  | (_, some _) => none

/-- The error a column contributes to the aggregate set, when it fails
validation. -/
def errOf (c : Column) : Option String := c.toSQL.2

/-- The column loop of `Table.ToSQL` collects, in list order, exactly
the successful column texts and the errors of the failing columns. -/
theorem foldl_columnStep_eq (cols : List Column) (d e : List String) :
    cols.foldl columnStep (d, e) = (d ++ cols.filterMap okDef, e ++ cols.filterMap errOf) := by
  induction cols generalizing d e with
  | nil => simp
  | cons c rest ih =>
    simp only [List.foldl_cons, List.filterMap_cons]
    cases hc : c.toSQL with
    | mk s err =>
      cases err with
      | none =>
        rw [show columnStep (d, e) c = (d ++ [s], e) by simp [columnStep, hc], ih]
        simp [okDef, errOf, hc]
      | some er =>
        rw [show columnStep (d, e) c = (d, e ++ [er]) by simp [columnStep, hc], ih]
        simp [okDef, errOf, hc]

/-- C5: for a table with a non-empty name, `ToSQL` serializes columns in
list order; each failing column contributes its error and is skipped; if
no column serializes successfully the extra "no valid columns" error is
added; and whenever the aggregate error set is non-empty the result is
the empty string with the full error set — otherwise the assembled
CREATE TABLE text with no errors. -/
theorem table_toSQL_spec (t : Table) (h : t.name ≠ "") :
    t.toSQL =
      if t.columns.filterMap okDef = [] then
        ("", t.columns.filterMap errOf ++ ["no valid columns defined for table " ++ t.name])
      else if t.columns.filterMap errOf = [] then
        ("CREATE TABLE " ++ t.name ++ " ("
          ++ String.intercalate ", " (t.columns.filterMap okDef) ++ ")"
          ++ (if t.comment ≠ "" then
                " COMMENT ON TABLE " ++ t.name ++ " IS " ++ squote ++ t.comment ++ squote
              else ""), [])
      else ("", t.columns.filterMap errOf) := by
  unfold Table.toSQL
  rw [if_neg h, foldl_columnStep_eq]
  simp only [List.nil_append]
  by_cases hg : t.columns.filterMap okDef = [] <;>
    by_cases he : t.columns.filterMap errOf = [] <;>
      simp [hg, he]

/-- A column that serializes successfully, for the C5 witness. -/
def c5Good : Column :=
  { newColumn "id" with dataType := serialType, primaryKey := true }

/-- A column that fails validation (NOT NULL with a default), for the
C5 witness. -/
def c5Bad : Column :=
  { newColumn "flag" with dataType := booleanType, notNull := true, defaultValue := "TRUE" }

theorem table_toSQL_spec_witness :
    ({ name := "users", columns := [c5Good, c5Bad] } : Table).toSQL
      = ("", ["column cannot be both NOT NULL and have a DEFAULT value"]) := by
  rw [table_toSQL_spec _ (by decide)]
  decide

/-- The six validation rules of the specification, in the fixed order
(a)–(f), each paired with the error message the source returns for it:
(a) recognized data type; (b) if auto-number then start ≥ 0; (c)
not-null and a non-empty default cannot coexist; (d) if identity start
is positive then the increment is positive; (e) a non-empty check
expression contains "("; (f) a non-empty reference string contains
"(". -/
def columnRules : List ((Column → Bool) × (Column → String)) :=
  [ (fun c => validDataType c.dataType,
      fun c => "invalid data type: " ++ c.dataType),
    (fun c => decide (c.autoNumber = true → 0 ≤ c.autoNumberStart),
      fun _ => "auto-number start must be greater or equal than 0"),
    (fun c => decide (¬(c.notNull = true ∧ c.defaultValue ≠ "")),
      fun _ => "column cannot be both NOT NULL and have a DEFAULT value"),
    (fun c => decide (0 < c.identityStart → 0 < c.identityInc),
      fun _ => "identity increment must be greater than 0"),
    (fun c => decide (c.check ≠ "" → c.check.contains '(' = true),
      fun _ => "check constraint must have an expression in parentheses"),
    (fun c => decide (c.references ≠ "" → c.references.contains '(' = true),
      fun _ => "foreign key references must be in the format 'table(column)'") ]

/-- The first rule of `columnRules` a column violates, mapped to its
error message; `none` when every rule holds. -/
def firstFailingRule (c : Column) : Option String :=
  (columnRules.find? fun r => !(r.1 c)).map fun r => r.2 c


/-- `Column.Validate` equals the first-failing-rule search over
`columnRules`: the if-chain checks the same rules in the same order. -/
theorem column_validate_eq_firstFailing (c : Column) : c.validate = firstFailingRule c := by
  unfold Column.validate firstFailingRule columnRules
  by_cases hA : validDataType c.dataType = true
  case neg =>
    have hA2 : validDataType c.dataType = false := by
      cases h : validDataType c.dataType
      · rfl
      · exact absurd h hA
    rw [if_pos hA]
    simp only [List.find?, hA2, Bool.not_false, Option.map_some']
  case pos =>
  rw [if_neg (not_not_intro hA)]
  by_cases hB : c.autoNumber = true ∧ c.autoNumberStart < 0
  case pos =>
    have nB : ¬(c.autoNumber = true → 0 ≤ c.autoNumberStart) :=
      fun him => absurd (him hB.1) (not_le.mpr hB.2)
    rw [if_pos hB]
    simp only [List.find?, hA, decide_eq_false nB, Bool.not_true, Bool.not_false,
      Option.map_some']
  case neg =>
  have pB : c.autoNumber = true → 0 ≤ c.autoNumberStart :=
    fun ha => not_lt.mp fun hs => hB ⟨ha, hs⟩
  rw [if_neg hB]
  by_cases hC : c.notNull = true ∧ c.defaultValue ≠ ""
  case pos =>
    rw [if_pos hC]
    simp only [List.find?, hA, decide_eq_true pB, decide_eq_false (not_not_intro hC),
      Bool.not_true, Bool.not_false, Option.map_some']
  case neg =>
  rw [if_neg hC]
  by_cases hD : 0 < c.identityStart ∧ c.identityInc ≤ 0
  case pos =>
    have nD : ¬(0 < c.identityStart → 0 < c.identityInc) :=
      fun him => absurd (him hD.1) (not_lt.mpr hD.2)
    rw [if_pos hD]
    simp only [List.find?, hA, decide_eq_true pB, decide_eq_true hC,
      decide_eq_false nD, Bool.not_true, Bool.not_false, Option.map_some']
  case neg =>
  have pD : 0 < c.identityStart → 0 < c.identityInc :=
    fun hs => not_le.mp fun hi => hD ⟨hs, hi⟩
  rw [if_neg hD]
  by_cases hE : c.check ≠ "" ∧ ¬(c.check.contains '(' = true)
  case pos =>
    have nE : ¬(c.check ≠ "" → c.check.contains '(' = true) :=
      fun him => hE.2 (him hE.1)
    rw [if_pos hE]
    simp only [List.find?, hA, decide_eq_true pB, decide_eq_true hC,
      decide_eq_true pD, decide_eq_false nE, Bool.not_true, Bool.not_false,
      Option.map_some']
  case neg =>
  have pE : c.check ≠ "" → c.check.contains '(' = true :=
    fun hne => not_not.mp fun hcon => hE ⟨hne, hcon⟩
  rw [if_neg hE]
  by_cases hF : c.references ≠ "" ∧ ¬(c.references.contains '(' = true)
  case pos =>
    have nF : ¬(c.references ≠ "" → c.references.contains '(' = true) :=
      fun him => hF.2 (him hF.1)
    rw [if_pos hF]
    simp only [List.find?, hA, decide_eq_true pB, decide_eq_true hC,
      decide_eq_true pD, decide_eq_true pE, decide_eq_false nF, Bool.not_true,
      Bool.not_false, Option.map_some']
  case neg =>
  have pF : c.references ≠ "" → c.references.contains '(' = true :=
    fun hne => not_not.mp fun hcon => hF ⟨hne, hcon⟩
  rw [if_neg hF]
  simp only [List.find?, hA, decide_eq_true pB, decide_eq_true hC,
    decide_eq_true pD, decide_eq_true pE, decide_eq_true pF, Bool.not_true,
    Option.map_none']

/-- C6: `Column.Validate` checks the rules (a)–(f) in that fixed order
and returns the first failing rule's error immediately; it returns nil
exactly when all six rules hold; and when it fails, `Column.ToSQL`
returns the empty string paired with exactly that error. -/
theorem column_validate_rule_order (c : Column) :
    c.validate = firstFailingRule c
      ∧ (c.validate = none ↔ ∀ r ∈ columnRules, r.1 c = true)
      ∧ (∀ e, c.validate = some e → c.toSQL = ("", some e)) := by
  refine ⟨column_validate_eq_firstFailing c, ?_, ?_⟩
  · rw [column_validate_eq_firstFailing c]
    unfold firstFailingRule
    simp [Option.map_eq_none', List.find?_eq_none]
  · intro e h
    simp [Column.toSQL, h]

/-- A column violating rule (c), for the C6 witness. -/
def c6Column : Column :=
  { newColumn "flag" with
      dataType := booleanType, notNull := true, defaultValue := "TRUE" }

theorem column_validate_rule_order_witness :
    c6Column.toSQL
      = ("", some "column cannot be both NOT NULL and have a DEFAULT value") := by
  refine (column_validate_rule_order _).2.2 _ ?_
  decide

/-- The type-token mapping exactly as the claim words it, reading a
length/precision/scale field as "set" when it holds a positive value
(the reading the claim itself uses for length: "VARCHAR(n) if
length > 0"): decimal maps to `DECIMAL(p,s)` when both precision and
scale are set, to `DECIMAL(p)` when only precision is set, else to bare
`DECIMAL`. -/
def typeTokenClaim (col : Column) (data : String) : String :=
  if data = serialType then "SERIAL"
  else if data = stringType then
    if col.length > 0 then "VARCHAR(" ++ toString col.length ++ ")" else "VARCHAR"
  else if data = integerType then "INTEGER"
  else if data = decimalType then
    if 0 < col.precision ∧ 0 < col.scale then
      "DECIMAL(" ++ toString col.precision ++ "," ++ toString col.scale ++ ")"
    else if 0 < col.precision then
      "DECIMAL(" ++ toString col.precision ++ ")"
    else "DECIMAL"
  else if data = booleanType then "BOOLEAN"
  else if data = dateType then "DATE"
  else if data = dateTimeType then "TIMESTAMP"
  else "VARCHAR"

/-- A decimal column with positive precision and negative scale — the
one region where the claim's wording and the source disagree. -/
def c7Column : Column :=
  { newColumn "price" with dataType := decimalType, precision := 3, scale := -1 }

/-- C7 counterexample: at precision 3 and scale -1 the source emits bare
`DECIMAL` (its second branch demands scale exactly 0), while the claim's
"DECIMAL(p) if only precision is set" yields `DECIMAL(3)`. -/
theorem decimal_token_claim_counterexample :
    c7Column.toDataTypeString decimalType = "DECIMAL"
      ∧ typeTokenClaim c7Column decimalType = "DECIMAL(3)"
      ∧ c7Column.toDataTypeString decimalType ≠ typeTokenClaim c7Column decimalType := by
  refine ⟨by decide, by decide, by decide⟩

/-- The claim's mapping amended only in the decimal branch: `DECIMAL(p)`
requires positive precision and scale exactly zero; every other clause
is unchanged. -/
def typeTokenAmended (col : Column) (data : String) : String :=
  if data = serialType then "SERIAL"
  else if data = stringType then
    if col.length > 0 then "VARCHAR(" ++ toString col.length ++ ")" else "VARCHAR"
  else if data = integerType then "INTEGER"
  else if data = decimalType then
    if 0 < col.precision ∧ 0 < col.scale then
      "DECIMAL(" ++ toString col.precision ++ "," ++ toString col.scale ++ ")"
    else if 0 < col.precision ∧ col.scale = 0 then
      "DECIMAL(" ++ toString col.precision ++ ")"
    else "DECIMAL"
  else if data = booleanType then "BOOLEAN"
  else if data = dateType then "DATE"
  else if data = dateTimeType then "TIMESTAMP"
  else "VARCHAR"

/-- C7 amended: the source's type-token mapping agrees with the amended
claim mapping on every column and every data-type token, including the
silent `VARCHAR` fallback for unrecognized tokens. -/
theorem type_token_mapping_amended (c : Column) (d : String) :
    c.toDataTypeString d = typeTokenAmended c d := rfl

/-- The shared base of the C2 counterexample columns. -/
def c2Base : Column := { newColumn "c" with dataType := integerType }

/-- The C2 column with one possible iteration order of its two-entry
attributes map. -/
def c2First : Column :=
  { c2Base with attributes := [("fillfactor", "70"), ("parallel_workers", "4")] }

/-- The same map enumerated in the other order. -/
def c2Second : Column :=
  { c2Base with attributes := [("parallel_workers", "4"), ("fillfactor", "70")] }

/-- C2 counterexample: `c2First` and `c2Second` are the same column
value holding the same two-entry attributes map (the entry lists are
permutations of one another with distinct keys, and every other field
agrees), yet the two iteration orders — both realizable by Go's
unspecified map range order, across two calls on the unmodified value —
produce different `ToSQL` text.  In particular the output is not a
function of insertion order, which a Go map does not store. -/
theorem column_toSQL_map_order_counterexample :
    c2First.attributes.Perm c2Second.attributes
      ∧ (c2First.attributes.map Prod.fst).Nodup
      ∧ ({ c2First with attributes := [] } : Column) = { c2Second with attributes := [] }
      ∧ c2First.toSQL ≠ c2Second.toSQL := by
  refine ⟨List.Perm.swap _ _ _, by decide, rfl, by decide⟩

/-- C2 amended: `ToSQL` is deterministic as a function of the column's
fields together with the realized iteration order of its attributes map;
whenever the map holds at most one entry, the output is moreover
independent of that order, so repeated calls are byte-identical. -/
theorem column_toSQL_deterministic_small_map (c d : Column)
    (hbase : ({ c with attributes := [] } : Column) = { d with attributes := [] })
    (hperm : c.attributes.Perm d.attributes)
    (hlen : c.attributes.length ≤ 1) :
    c.toSQL = d.toSQL := by
  have hattr : c.attributes = d.attributes := by
    cases hc : c.attributes with
    | nil =>
      rw [hc] at hperm
      exact (List.perm_nil.mp hperm.symm).symm
    | cons x tl =>
      cases tl with
      | nil =>
        rw [hc] at hperm
        exact List.singleton_perm.mp hperm
      | cons y tl2 => simp [hc] at hlen
  have : c = d := by
    cases c; cases d
    simp only [Column.mk.injEq] at hbase ⊢
    simp_all
  rw [this]

/-- A single-attribute column for the C2 witness. -/
def c2Single : Column :=
  { c2Base with attributes := [("fillfactor", "70")] }

theorem column_toSQL_deterministic_small_map_witness :
    c2Single.toSQL = c2Single.toSQL :=
  column_toSQL_deterministic_small_map c2Single c2Single rfl (List.Perm.refl _) (by decide)
